import Mathlib

/-
Verification of the rust-ollama client library (JamesClarke7283/rust-ollama)
against its natural-language specification.

Shallow embedding conventions:
  * JSON encode/decode and the HTTP transport are external collaborators
    (spec section 1); a response body is therefore modelled as
    `Option Json`, where `none` stands for body text that serde_json
    cannot parse at all, and `some j` for text that parses to the JSON
    value `j`.  The derived serde (de)serializers for each struct are
    embedded field by field below.
  * The transport is passed explicitly as an oracle, `get : String →
    Except String HttpResponse` for GET endpoints and `post : String →
    Json → Except String HttpResponse` for POST endpoints; `Except.error`
    models a reqwest send failure.
  * reqwest `error_for_status` errors exactly when the status code is in
    400..=599 (is_client_error or is_server_error).
  * The source duplicates each operation for blocking and non-blocking
    builds behind cfg feature gates; the two variants are embedded as
    separate definitions suffixed `_sync` and `_async`, each translated
    from its own cfg branch.
-/

/-- JSON values, mirroring the serde_json Value data model used by the
source.  Numbers are modelled as integers, which covers every value the
embedded structs serialize or deserialize (u64 sizes); floats are not
needed by any embedded field. -/
inductive Json where
  | null : Json
  | bool (b : Bool) : Json
  | num (n : Int) : Json
  | str (s : String) : Json
  | arr (items : List Json) : Json
  | obj (fields : List (String × Json)) : Json

/-- An HTTP response as observed by the library after the transport
collaborator returns: a status code and the body text, already modelled
at the JSON level (`none` = text that is not valid JSON). -/
structure HttpResponse where
  status : Nat
  body : Option Json

/-- Error taxonomy of the library (spec section 7).  `sendError` models a
reqwest send failure, `statusError` the error produced by
`error_for_status`, `decodeError` a serde_json deserialization failure.
The first two together form the TransportError class of the spec. -/
inductive ApiError where
  | sendError (msg : String)
  | statusError (status : Nat)
  | decodeError (msg : String)

/-- TransportError class of the spec: send failures and status errors. -/
def ApiError.isTransport : ApiError → Bool
  | .sendError _ => true
  | .statusError _ => true
  | .decodeError _ => false

/-- DecodeError class of the spec. -/
def ApiError.isDecode : ApiError → Bool
  | .decodeError _ => true
  | _ => false

/-- Modelled from the spec: src/constants.rs is referenced throughout the
source (`crate::constants`) but is not under src/.  Spec section 6 gives
the listing endpoint as GET base + /api/tags. -/
def API_TAGS_ENDPOINT : String := "/api/tags"

/-- Modelled from the spec: src/constants.rs is missing from src/.  Spec
section 6 gives the detail endpoint as POST base + /api/show. -/
def SHOW_ENDPOINT : String := "/api/show"

/-- Modelled from the spec: src/constants.rs is missing from src/.  Spec
sections 4.1 and 6 give the default host. -/
def TEST_ENDPOINT_HOST : String := "http://localhost"

/-- Modelled from the spec: src/constants.rs is missing from src/.  Spec
sections 4.1 and 6 give the default port. -/
def TEST_ENDPOINT_PORT : Nat := 11434

/-- Modelled from the spec: src/constants.rs is missing from src/.  Spec
section 6 combines host and port into the default endpoint. -/
def TEST_ENDPOINT : String := "http://localhost:11434"

/-- Client of src/api/sync/client.rs and src/api/async/client.rs (both
store a base_url string and a reqwest client handle; the handle belongs
to the transport collaborator and is not part of the state the library
logic reads). -/
structure Client where
  base_url : String

/-- Modelled from the spec: the Ollama client configuration
(`crate::api::client::Ollama`, used by src/api/show.rs and
src/structs/partialmodel.rs with methods new, with_host, with_port,
base_url) is not under src/.  Spec section 3 ClientConfig: a host and an
optional port. -/
structure Ollama where
  host : String
  port : Option Nat

/-- Modelled from the spec, section 4.1: new() returns the default host
http://localhost and default port 11434. -/
def Ollama.new : Ollama := { host := TEST_ENDPOINT_HOST, port := some TEST_ENDPOINT_PORT }

/-- Modelled from the spec, section 4.1: with_host overrides the host. -/
def Ollama.with_host (c : Ollama) (h : String) : Ollama := { c with host := h }

/-- Modelled from the spec, section 4.1: with_port overrides the port. -/
def Ollama.with_port (c : Ollama) (p : Nat) : Ollama := { c with port := some p }

/-- Modelled from the spec, section 3: base_url() is host concatenated
with colon port when the port is present, else the host unchanged. -/
def Ollama.base_url (c : Ollama) : String :=
  match c.port with
  | some p => c.host ++ ":" ++ toString p
  | none => c.host

/-- Model struct of src/api/list.rs lines 6-10; the structs of the same
name in src/api/sync/list.rs lines 6-11 and src/api/async/list.rs lines
5-10 are field-for-field identical, so this one definition embeds all
three.  Renamed ListModel here because the full Model of
src/structs/model.rs also keeps its source name. -/
structure ListModel where
  name : String
  description : Option String

/-- Derived serde deserializer for the ListModel struct: visit the object
fields in order, filling name (required string) and description
(optional string, null allowed), erroring on a duplicate known field and
skipping unknown fields; after the last field, name must be present and
a missing description defaults to none. -/
def decodeListModelFields : List (String × Json) → Option String → Option (Option String) →
    Except String ListModel
  | [], none, _ => .error "missing field name"
  | [], some n, d => .ok { name := n, description := d.getD none }
  | (k, v) :: rest, accName, accDesc =>
    if k = "name" then
      match accName with
      | some _ => .error "duplicate field name"
      | none =>
        match v with
        | .str s => decodeListModelFields rest (some s) accDesc
        | _ => .error "invalid type for field name"
    else if k = "description" then
      match accDesc with
      | some _ => .error "duplicate field description"
      | none =>
        match v with
        | .null => decodeListModelFields rest accName (some none)
        | .str s => decodeListModelFields rest accName (some (some s))
        | _ => .error "invalid type for field description"
    else
      decodeListModelFields rest accName accDesc

/-- Derived serde deserializer for ListModel: the value must be a JSON
object. -/
def decodeListModel : Json → Except String ListModel
  | .obj fields => decodeListModelFields fields none none
  | _ => .error "invalid type: expected struct Model"

/-- Derived serde deserializer for a sequence of ListModel, visiting the
array elements in order and stopping at the first failure. -/
def decodeListModels : List Json → Except String (List ListModel)
  | [] => .ok []
  | j :: rest =>
    match decodeListModel j with
    | .error e => .error e
    | .ok m =>
      match decodeListModels rest with
      | .error e => .error e
      | .ok ms => .ok (m :: ms)

/-- Derived serde deserializer for the ModelsResponse struct of
src/api/list.rs lines 12-15 (identical in src/api/sync/list.rs and
src/api/async/list.rs): one required field `models` holding an array;
unknown fields skipped, duplicate `models` rejected. -/
def decodeModelsResponseFields : List (String × Json) → Option (List ListModel) →
    Except String (List ListModel)
  | [], none => .error "missing field models"
  | [], some ms => .ok ms
  | (k, v) :: rest, acc =>
    if k = "models" then
      match acc with
      | some _ => .error "duplicate field models"
      | none =>
        match v with
        | .arr items =>
          match decodeListModels items with
          | .error e => .error e
          | .ok ms => decodeModelsResponseFields rest (some ms)
        | _ => .error "invalid type for field models"
    else
      decodeModelsResponseFields rest acc

/-- Derived serde deserializer for ModelsResponse, returning the models
vector as the list functions extract it. -/
def decodeModelsResponse : Json → Except String (List ListModel)
  | .obj fields => decodeModelsResponseFields fields none
  | _ => .error "invalid type: expected struct ModelsResponse"

/-- serde_json from_str applied to a body, where `none` models text that
is not valid JSON. -/
def parseModelsBody : Option Json → Except String (List ListModel)
  | none => .error "expected value: body is not valid JSON"
  | some j => decodeModelsResponse j

/-- Listing URL of `list` in src/api/list.rs lines 39-42 (same in the
sync branch, lines 39-42, and the async branch, lines 85-88): the base
url of the client when one is supplied, else the default endpoint. -/
def listUrl : Option Client → String
  | some c => c.base_url ++ API_TAGS_ENDPOINT
  | none => TEST_ENDPOINT ++ API_TAGS_ENDPOINT

/-- list of src/api/list.rs lines 36-59 (cfg not async): GET the listing
URL, propagate a send failure, error_for_status (400..=599), then parse
the body as ModelsResponse and return its models vector. -/
def list_sync (client : Option Client) (get : String → Except String HttpResponse) :
    Except ApiError (List ListModel) :=
  match get (listUrl client) with
  | .error e => .error (.sendError e)
  | .ok resp =>
    if 400 ≤ resp.status ∧ resp.status ≤ 599 then
      .error (.statusError resp.status)
    else
      match parseModelsBody resp.body with
      | .error e => .error (.decodeError e)
      | .ok ms => .ok ms

/-- list of src/api/list.rs lines 84-106 (cfg async): textually the same
pipeline as the sync variant, written against the non-blocking
transport. -/
def list_async (client : Option Client) (get : String → Except String HttpResponse) :
    Except ApiError (List ListModel) :=
  match get (listUrl client) with
  | .error e => .error (.sendError e)
  | .ok resp =>
    if 400 ≤ resp.status ∧ resp.status ≤ 599 then
      .error (.statusError resp.status)
    else
      match parseModelsBody resp.body with
      | .error e => .error (.decodeError e)
      | .ok ms => .ok ms

/-- list_models of src/api/sync/list.rs lines 40-51: GET base_url plus
the tags endpoint, propagate a send failure, read the body and parse it
as ModelsResponse.  Note: this variant never calls error_for_status, so
the status code is not inspected. -/
def list_models_sync (base_url : String) (get : String → Except String HttpResponse) :
    Except ApiError (List ListModel) :=
  match get (base_url ++ API_TAGS_ENDPOINT) with
  | .error e => .error (.sendError e)
  | .ok resp =>
    match parseModelsBody resp.body with
    | .error e => .error (.decodeError e)
    | .ok ms => .ok ms

/-- list_models of src/api/async/list.rs lines 43-54: textually the same
pipeline as the sync list_models, written against the non-blocking
transport; it also never inspects the status code. -/
def list_models_async (base_url : String) (get : String → Except String HttpResponse) :
    Except ApiError (List ListModel) :=
  match get (base_url ++ API_TAGS_ENDPOINT) with
  | .error e => .error (.sendError e)
  | .ok resp =>
    match parseModelsBody resp.body with
    | .error e => .error (.decodeError e)
    | .ok ms => .ok ms

/-- ModelDetails of src/structs/model.rs lines 5-24: six optional string
or string-list fields. -/
structure ModelDetails where
  parent_model : Option String
  format : Option String
  family : Option String
  families : Option (List String)
  parameter_size : Option String
  quantization_level : Option String

/-- Derived serde serializer for an optional string: none becomes null
(the source uses no skip attribute). -/
def encodeOptStr : Option String → Json
  | none => .null
  | some s => .str s

/-- Derived serde serializer for an optional string list. -/
def encodeOptStrList : Option (List String) → Json
  | none => .null
  | some xs => .arr (xs.map .str)

/-- Derived serde serializer for ModelDetails, fields in declaration
order. -/
def ModelDetails.encode (d : ModelDetails) : Json :=
  .obj [("parent_model", encodeOptStr d.parent_model),
        ("format", encodeOptStr d.format),
        ("family", encodeOptStr d.family),
        ("families", encodeOptStrList d.families),
        ("parameter_size", encodeOptStr d.parameter_size),
        ("quantization_level", encodeOptStr d.quantization_level)]

/-- Derived serde deserializer for an optional string field value: null
gives none, a string gives some. -/
def decodeOptStrValue : Json → Except String (Option String)
  | .null => .ok none
  | .str s => .ok (some s)
  | _ => .error "invalid type: expected string or null"

/-- Derived serde deserializer for a string sequence, visiting elements
in order. -/
def decodeStringList : List Json → Except String (List String)
  | [] => .ok []
  | .str s :: rest =>
    match decodeStringList rest with
    | .error e => .error e
    | .ok xs => .ok (s :: xs)
  | _ :: _ => .error "invalid type: expected string"

/-- Derived serde deserializer for an optional string-list field value. -/
def decodeOptStrListValue : Json → Except String (Option (List String))
  | .null => .ok none
  | .arr items =>
    match decodeStringList items with
    | .error e => .error e
    | .ok xs => .ok (some xs)
  | _ => .error "invalid type: expected sequence or null"

/-- Accumulator for the derived ModelDetails deserializer: each field is
none while unseen, so that a duplicate can be rejected. -/
structure DetailsAcc where
  parent_model : Option (Option String) := none
  format : Option (Option String) := none
  family : Option (Option String) := none
  families : Option (Option (List String)) := none
  parameter_size : Option (Option String) := none
  quantization_level : Option (Option String) := none

/-- Derived serde deserializer for ModelDetails: visit fields in order,
fill each known field at most once, skip unknown fields; a missing
optional field defaults to none. -/
def decodeModelDetailsFields : List (String × Json) → DetailsAcc → Except String ModelDetails
  | [], acc =>
    .ok { parent_model := acc.parent_model.getD none,
          format := acc.format.getD none,
          family := acc.family.getD none,
          families := acc.families.getD none,
          parameter_size := acc.parameter_size.getD none,
          quantization_level := acc.quantization_level.getD none }
  | (k, v) :: rest, acc =>
    if k = "parent_model" then
      match acc.parent_model with
      | some _ => .error "duplicate field parent_model"
      | none =>
        match decodeOptStrValue v with
        | .error e => .error e
        | .ok x => decodeModelDetailsFields rest { acc with parent_model := some x }
    else if k = "format" then
      match acc.format with
      | some _ => .error "duplicate field format"
      | none =>
        match decodeOptStrValue v with
        | .error e => .error e
        | .ok x => decodeModelDetailsFields rest { acc with format := some x }
    else if k = "family" then
      match acc.family with
      | some _ => .error "duplicate field family"
      | none =>
        match decodeOptStrValue v with
        | .error e => .error e
        | .ok x => decodeModelDetailsFields rest { acc with family := some x }
    else if k = "families" then
      match acc.families with
      | some _ => .error "duplicate field families"
      | none =>
        match decodeOptStrListValue v with
        | .error e => .error e
        | .ok x => decodeModelDetailsFields rest { acc with families := some x }
    else if k = "parameter_size" then
      match acc.parameter_size with
      | some _ => .error "duplicate field parameter_size"
      | none =>
        match decodeOptStrValue v with
        | .error e => .error e
        | .ok x => decodeModelDetailsFields rest { acc with parameter_size := some x }
    else if k = "quantization_level" then
      match acc.quantization_level with
      | some _ => .error "duplicate field quantization_level"
      | none =>
        match decodeOptStrValue v with
        | .error e => .error e
        | .ok x => decodeModelDetailsFields rest { acc with quantization_level := some x }
    else
      decodeModelDetailsFields rest acc

/-- Derived serde deserializer for ModelDetails: the value must be a JSON
object. -/
def decodeModelDetails : Json → Except String ModelDetails
  | .obj fields => decodeModelDetailsFields fields {}
  | _ => .error "invalid type: expected struct ModelDetails"

/-- Model of src/structs/model.rs lines 48-67: the full record.  The size
field is a u64 in the source; it is embedded as a Nat, with the machine
bound size < 2 to the 64 stated as a hypothesis where it matters. -/
structure Model where
  name : String
  model : String
  modified_at : String
  size : Nat
  digest : String
  details : ModelDetails

/-- Model::json of src/structs/model.rs lines 89-92 serializes the record
with serde_json::to_string.  The text layer is the external serde_json
primitive; this embedding produces the JSON value that the derived
serializer emits, fields in declaration order. -/
def Model.json (m : Model) : Json :=
  .obj [("name", .str m.name),
        ("model", .str m.model),
        ("modified_at", .str m.modified_at),
        ("size", .num (Int.ofNat m.size)),
        ("digest", .str m.digest),
        ("details", m.details.encode)]

/-- Derived serde deserializer for a u64 value: an integer in 0..2^64. -/
def decodeU64Value : Json → Except String Nat
  | .num n => if 0 ≤ n ∧ n < 18446744073709551616 then .ok n.toNat else .error "invalid value: integer out of range for u64"
  | _ => .error "invalid type: expected u64"

/-- Accumulator for the derived Model deserializer. -/
structure ModelAcc where
  name : Option String := none
  model : Option String := none
  modified_at : Option String := none
  size : Option Nat := none
  digest : Option String := none
  details : Option ModelDetails := none

/-- Derived serde deserializer for Model: visit fields in order, each
known field at most once, unknown fields skipped; every field of Model
is required, so each must be present at the end. -/
def decodeModelFields : List (String × Json) → ModelAcc → Except String Model
  | [], acc =>
    match acc.name, acc.model, acc.modified_at, acc.size, acc.digest, acc.details with
    | some n, some mo, some ma, some sz, some dg, some dt =>
      .ok { name := n, model := mo, modified_at := ma, size := sz, digest := dg, details := dt }
    | none, _, _, _, _, _ => .error "missing field name"
    | _, none, _, _, _, _ => .error "missing field model"
    | _, _, none, _, _, _ => .error "missing field modified_at"
    | _, _, _, none, _, _ => .error "missing field size"
    | _, _, _, _, none, _ => .error "missing field digest"
    | _, _, _, _, _, none => .error "missing field details"
  | (k, v) :: rest, acc =>
    if k = "name" then
      match acc.name with
      | some _ => .error "duplicate field name"
      | none =>
        match v with
        | .str s => decodeModelFields rest { acc with name := some s }
        | _ => .error "invalid type for field name"
    else if k = "model" then
      match acc.model with
      | some _ => .error "duplicate field model"
      | none =>
        match v with
        | .str s => decodeModelFields rest { acc with model := some s }
        | _ => .error "invalid type for field model"
    else if k = "modified_at" then
      match acc.modified_at with
      | some _ => .error "duplicate field modified_at"
      | none =>
        match v with
        | .str s => decodeModelFields rest { acc with modified_at := some s }
        | _ => .error "invalid type for field modified_at"
    else if k = "size" then
      match acc.size with
      | some _ => .error "duplicate field size"
      | none =>
        match decodeU64Value v with
        | .error e => .error e
        | .ok n => decodeModelFields rest { acc with size := some n }
    else if k = "digest" then
      match acc.digest with
      | some _ => .error "duplicate field digest"
      | none =>
        match v with
        | .str s => decodeModelFields rest { acc with digest := some s }
        | _ => .error "invalid type for field digest"
    else if k = "details" then
      match acc.details with
      | some _ => .error "duplicate field details"
      | none =>
        match decodeModelDetails v with
        | .error e => .error e
        | .ok d => decodeModelFields rest { acc with details := some d }
    else
      decodeModelFields rest acc

/-- Derived serde deserializer for Model: the value must be a JSON
object. -/
def decodeModel : Json → Except String Model
  | .obj fields => decodeModelFields fields {}
  | _ => .error "invalid type: expected struct Model"

/-- ShowRequest of src/api/show.rs lines 12-16: the POST body for the
show endpoint. -/
structure ShowRequest where
  name : String
  verbose : Option Bool

/-- Derived serde serializer for an optional bool: none becomes null (no
skip attribute in the source). -/
def encodeOptBool : Option Bool → Json
  | none => .null
  | some b => .bool b

/-- Derived serde serializer for ShowRequest, fields in declaration
order. -/
def ShowRequest.encode (r : ShowRequest) : Json :=
  .obj [("name", .str r.name), ("verbose", encodeOptBool r.verbose)]

/-- ShowResponse of src/api/show.rs lines 23-30: modelfile, parameters
and template are required strings, details a ModelDetails, model_info an
optional opaque JSON value. -/
structure ShowResponse where
  modelfile : String
  parameters : String
  template : String
  details : ModelDetails
  model_info : Option Json

/-- Accumulator for the derived ShowResponse deserializer. -/
structure ShowAcc where
  modelfile : Option String := none
  parameters : Option String := none
  template : Option String := none
  details : Option ModelDetails := none
  model_info : Option (Option Json) := none

/-- Derived serde deserializer for ShowResponse: visit fields in order,
each known field at most once, unknown fields skipped; modelfile,
parameters, template and details are required, model_info is optional
(absent or null gives none). -/
def decodeShowResponseFields : List (String × Json) → ShowAcc → Except String ShowResponse
  | [], acc =>
    match acc.modelfile, acc.parameters, acc.template, acc.details with
    | some mf, some pa, some te, some dt =>
      .ok { modelfile := mf, parameters := pa, template := te, details := dt,
            model_info := acc.model_info.getD none }
    | none, _, _, _ => .error "missing field modelfile"
    | _, none, _, _ => .error "missing field parameters"
    | _, _, none, _ => .error "missing field template"
    | _, _, _, none => .error "missing field details"
  | (k, v) :: rest, acc =>
    if k = "modelfile" then
      match acc.modelfile with
      | some _ => .error "duplicate field modelfile"
      | none =>
        match v with
        | .str s => decodeShowResponseFields rest { acc with modelfile := some s }
        | _ => .error "invalid type for field modelfile"
    else if k = "parameters" then
      match acc.parameters with
      | some _ => .error "duplicate field parameters"
      | none =>
        match v with
        | .str s => decodeShowResponseFields rest { acc with parameters := some s }
        | _ => .error "invalid type for field parameters"
    else if k = "template" then
      match acc.template with
      | some _ => .error "duplicate field template"
      | none =>
        match v with
        | .str s => decodeShowResponseFields rest { acc with template := some s }
        | _ => .error "invalid type for field template"
    else if k = "details" then
      match acc.details with
      | some _ => .error "duplicate field details"
      | none =>
        match decodeModelDetails v with
        | .error e => .error e
        | .ok d => decodeShowResponseFields rest { acc with details := some d }
    else if k = "model_info" then
      match acc.model_info with
      | some _ => .error "duplicate field model_info"
      | none =>
        match v with
        | .null => decodeShowResponseFields rest { acc with model_info := some none }
        | j => decodeShowResponseFields rest { acc with model_info := some (some j) }
    else
      decodeShowResponseFields rest acc

/-- Derived serde deserializer for ShowResponse: the value must be a JSON
object. -/
def decodeShowResponse : Json → Except String ShowResponse
  | .obj fields => decodeShowResponseFields fields {}
  | _ => .error "invalid type: expected struct ShowResponse"

/-- serde_json from_str for a show response body. -/
def parseShowBody : Option Json → Except String ShowResponse
  | none => .error "expected value: body is not valid JSON"
  | some j => decodeShowResponse j

/-- Show URL of the sync show, src/api/show.rs lines 61-64: base_url of
the client plus the show endpoint when a client is supplied, else
TEST_ENDPOINT_HOST plus the show endpoint (note: no port). -/
def showUrl_sync : Option Ollama → String
  | some c => c.base_url ++ SHOW_ENDPOINT
  | none => TEST_ENDPOINT_HOST ++ SHOW_ENDPOINT

/-- Show URL of the async show, src/api/show.rs lines 120-123: base_url
of the client plus the show endpoint when a client is supplied, else
TEST_ENDPOINT_HOST, a colon, TEST_ENDPOINT_PORT and the show endpoint. -/
def showUrl_async : Option Ollama → String
  | some c => c.base_url ++ SHOW_ENDPOINT
  | none => TEST_ENDPOINT_HOST ++ ":" ++ toString TEST_ENDPOINT_PORT ++ SHOW_ENDPOINT

/-- show of src/api/show.rs lines 58-87 (cfg not async): POST the
ShowRequest body to the sync show URL, propagate a send failure,
error_for_status (400..=599), then parse the body as ShowResponse. -/
def show_sync (client : Option Ollama) (post : String → Json → Except String HttpResponse)
    (name : String) (verbose : Option Bool) : Except ApiError ShowResponse :=
  match post (showUrl_sync client) (ShowRequest.encode { name := name, verbose := verbose }) with
  | .error e => .error (.sendError e)
  | .ok resp =>
    if 400 ≤ resp.status ∧ resp.status ≤ 599 then
      .error (.statusError resp.status)
    else
      match parseShowBody resp.body with
      | .error e => .error (.decodeError e)
      | .ok r => .ok r

/-- show of src/api/show.rs lines 119-147 (cfg async): the same pipeline
as the sync variant except for its fallback URL. -/
def show_async (client : Option Ollama) (post : String → Json → Except String HttpResponse)
    (name : String) (verbose : Option Bool) : Except ApiError ShowResponse :=
  match post (showUrl_async client) (ShowRequest.encode { name := name, verbose := verbose }) with
  | .error e => .error (.sendError e)
  | .ok resp =>
    if 400 ≤ resp.status ∧ resp.status ≤ 599 then
      .error (.statusError resp.status)
    else
      match parseShowBody resp.body with
      | .error e => .error (.decodeError e)
      | .ok r => .ok r

/-- PartialModel of src/structs/partialmodel.rs lines 8-15.  The size
field is a u64 in the source, embedded as a Nat. -/
structure PartialModel where
  name : String
  model : String
  modified_at : String
  size : Nat
  digest : String

/-- Modelled from the spec: Model::from_show_response is called by
PartialModel::to_model (src/structs/partialmodel.rs lines 50 and 83) but
is not defined under src/.  Spec section 4.5: the enrichment keeps all
fields from the detail response untouched, so the details field is taken
from the ShowResponse; the remaining Model fields (name, model,
modified_at, size, digest) have no carrier in the show response wire
format of section 6 and are left at empty defaults, the name being
overwritten by the caller per section 4.5. -/
def Model.from_show_response (r : ShowResponse) : Model :=
  { name := "", model := "", modified_at := "", size := 0, digest := "",
    details := r.details }

/-- to_model of src/structs/partialmodel.rs lines 48-53 (cfg async): call
show with the model field and verbose true, propagate errors, build the
Model from the show response and overwrite its name with the
PartialModel name. -/
def PartialModel.to_model_async (p : PartialModel) (client : Option Ollama)
    (post : String → Json → Except String HttpResponse) : Except ApiError Model :=
  match show_async client post p.model (some true) with
  | .error e => .error e
  | .ok response =>
    let model := Model.from_show_response response
    .ok { model with name := p.name }

/-- to_model of src/structs/partialmodel.rs lines 81-86 (cfg not async):
the same pipeline as the async variant, calling the sync show. -/
def PartialModel.to_model_sync (p : PartialModel) (client : Option Ollama)
    (post : String → Json → Except String HttpResponse) : Except ApiError Model :=
  match show_sync client post p.model (some true) with
  | .error e => .error e
  | .ok response =>
    let model := Model.from_show_response response
    .ok { model with name := p.name }

/-- Decoding a sequence of entries succeeds with exactly one record per
entry. -/
theorem decodeListModels_length (js : List Json) :
    ∀ ms, decodeListModels js = .ok ms → ms.length = js.length := by
  induction js with
  | nil =>
    intro ms h
    simp [decodeListModels] at h
    simp [← h]
  | cons j rest ih =>
    intro ms h
    rw [decodeListModels] at h
    cases h1 : decodeListModel j with
    | error e => rw [h1] at h; cases h
    | ok m =>
      rw [h1] at h
      cases h2 : decodeListModels rest with
      | error e => rw [h2] at h; cases h
      | ok tail =>
        rw [h2] at h
        cases h
        simp [ih tail h2]

/-- Unknown fields are skipped by the ListModel deserializer. -/
theorem decodeListModelFields_skip (extras : List (String × Json)) :
    ∀ (rest : List (String × Json)) (accName : Option String) (accDesc : Option (Option String)),
    (∀ kv ∈ extras, kv.1 ≠ "name" ∧ kv.1 ≠ "description") →
    decodeListModelFields (extras ++ rest) accName accDesc =
      decodeListModelFields rest accName accDesc := by
  induction extras with
  | nil => intro rest accName accDesc _; rfl
  | cons kv tl ih =>
    intro rest accName accDesc hkeys
    obtain ⟨hn, hd⟩ := hkeys kv (List.mem_cons_self kv tl)
    cases kv with
    | mk k v =>
      rw [List.cons_append, decodeListModelFields.eq_def]
      simp only at hn hd ⊢
      rw [if_neg hn, if_neg hd]
      exact ih rest accName accDesc (fun kv hkv => hkeys kv (List.mem_cons_of_mem _ hkv))

/-- Claim C8: for every host string h and every port p, the client
configuration base_url satisfies base_url(h, None) = h and
base_url(h, Some(p)) = h ++ ":" ++ p; base_url is a pure function of the
configured host and port (it is a total Lean function of exactly those
two fields, so purity is inherent in the embedding). -/
theorem base_url_formula (h : String) (p : Nat) :
    (Ollama.mk h none).base_url = h ∧
    (Ollama.mk h (some p)).base_url = h ++ ":" ++ toString p :=
  ⟨rfl, rfl⟩

/-- Claim C9: a listing response of status 200 whose body is exactly an
object with a models field holding an empty array yields a successful
empty catalog in both the blocking and the non-blocking variant. -/
theorem list_empty_models_success (c : Option Client) :
    list_sync c (fun _ => .ok ⟨200, some (.obj [("models", .arr [])])⟩) = .ok [] ∧
    list_async c (fun _ => .ok ⟨200, some (.obj [("models", .arr [])])⟩) = .ok [] :=
  ⟨rfl, rfl⟩

/-- Concrete show-endpoint body used by the concrete transports below. -/
def demoShowJson : Json :=
  .obj [("modelfile", .str "MF"), ("parameters", .str "p"), ("template", .str "tpl"),
        ("details", .obj [("family", .str "f")]), ("model_info", .null)]

/-- Decoded form of demoShowJson. -/
def demoShowResponse : ShowResponse :=
  { modelfile := "MF", parameters := "p", template := "tpl",
    details := { parent_model := none, format := none, family := some "f",
                 families := none, parameter_size := none, quantization_level := none },
    model_info := none }

/-- Transport that answers every POST with status 200 and demoShowJson. -/
def demoPost : String → Json → Except String HttpResponse :=
  fun _ _ => .ok ⟨200, some demoShowJson⟩

/-- Enriched record produced from demoShowJson for a partial record named
m:1. -/
def demoEnriched : Model :=
  { name := "m:1", model := "", modified_at := "", size := 0, digest := "",
    details := { parent_model := none, format := none, family := some "f",
                 families := none, parameter_size := none, quantization_level := none } }

/-- Claim C1: for every PartialModel p, every optional client
configuration and every transport behaviour, if to_model succeeds then
the name field of the returned Model equals p.name, in both the blocking
and the non-blocking variant.  The transport is universally quantified,
so this holds no matter what the detail endpoint responds; whatever name
Model.from_show_response assigns is overwritten. -/
theorem to_model_preserves_name (p : PartialModel) (client : Option Ollama)
    (post : String → Json → Except String HttpResponse) (m : Model) :
    (p.to_model_sync client post = .ok m → m.name = p.name) ∧
    (p.to_model_async client post = .ok m → m.name = p.name) := by
  constructor <;> intro h
  · rw [PartialModel.to_model_sync] at h
    cases hs : show_sync client post p.model (some true) with
    | error e => rw [hs] at h; cases h
    | ok r =>
      rw [hs] at h
      injection h with h
      rw [← h]
  · rw [PartialModel.to_model_async] at h
    cases hs : show_async client post p.model (some true) with
    | error e => rw [hs] at h; cases h
    | ok r =>
      rw [hs] at h
      injection h with h
      rw [← h]

/-- Witness for C1: a concrete enrichment whose detail response names a
different record (from_show_response yields an empty name, not m:1), yet
the result is named m:1. -/
theorem to_model_preserves_name_witness :
    (PartialModel.mk "m:1" "m:1" "t" 10 "d").to_model_sync none demoPost = .ok demoEnriched ∧
    demoEnriched.name = "m:1" :=
  ⟨rfl, (to_model_preserves_name (PartialModel.mk "m:1" "m:1" "t" 10 "d") none demoPost
    demoEnriched).1 rfl⟩

/-- Transport that answers only the portless fallback URL of the blocking
show and refuses every other URL. -/
def divergingPost : String → Json → Except String HttpResponse :=
  fun url _ =>
    if url = "http://localhost/api/show" then .ok ⟨200, some demoShowJson⟩
    else .error "connection refused"

/-- Claim C2 (code-bug demonstration): with no client configuration and
one and the same transport, the blocking and the non-blocking show post
to different URLs, because the blocking fallback omits the port
(src/api/show.rs lines 61-64 versus 120-123), and consequently they
return different results for identical inputs. -/
theorem show_sync_async_diverge :
    showUrl_sync none ≠ showUrl_async none ∧
    show_sync none divergingPost "m" (some true) = .ok demoShowResponse ∧
    show_async none divergingPost "m" (some true) = .error (.sendError "connection refused") :=
  ⟨by decide, rfl, rfl⟩

/-- Listing body with one entry named x. -/
def bodyOneX : Json := .obj [("models", .arr [.obj [("name", .str "x")]])]

/-- Listing body with an empty models array. -/
def bodyEmptyModels : Json := .obj [("models", .arr [])]

/-- Claim C3 counterexample: list_models (both the blocking variant of
src/api/sync/list.rs and the non-blocking one of src/api/async/list.rs)
returns success on a 500-status response whose body parses, parsing the
body as a success payload, and list (src/api/list.rs) parses the body of
a 304 response into a success instead of failing with a transport error,
so the claim as stated is false. -/
theorem listing_non2xx_counterexample :
    list_models_sync TEST_ENDPOINT (fun _ => .ok ⟨500, some bodyOneX⟩) =
      .ok [{ name := "x", description := none }] ∧
    list_models_async TEST_ENDPOINT (fun _ => .ok ⟨500, some bodyOneX⟩) =
      .ok [{ name := "x", description := none }] ∧
    list_sync none (fun _ => .ok ⟨304, some bodyEmptyModels⟩) = .ok [] :=
  ⟨rfl, rfl, rfl⟩

/-- Claim C3 as amended: for list (src/api/list.rs, both variants) and
for show (both variants), a response status in 400..599 fails with a
TransportError and the body is never parsed (the result is the status
error whatever the body holds); statuses outside 400..599 proceed to
parsing; and list_models (src/api/sync/list.rs and src/api/async/list.rs)
never inspects the status code: its result is the same for any two
statuses with the same body. -/
theorem listing_status_policy :
    (∀ (c : Option Client) (get : String → Except String HttpResponse) (r : HttpResponse),
       get (listUrl c) = .ok r → 400 ≤ r.status → r.status ≤ 599 →
       list_sync c get = .error (.statusError r.status) ∧
       list_async c get = .error (.statusError r.status)) ∧
    (∀ (c : Option Ollama) (post : String → Json → Except String HttpResponse)
       (n : String) (v : Option Bool) (r : HttpResponse),
       post (showUrl_sync c) (ShowRequest.encode { name := n, verbose := v }) = .ok r →
       400 ≤ r.status → r.status ≤ 599 →
       show_sync c post n v = .error (.statusError r.status)) ∧
    (∀ (c : Option Ollama) (post : String → Json → Except String HttpResponse)
       (n : String) (v : Option Bool) (r : HttpResponse),
       post (showUrl_async c) (ShowRequest.encode { name := n, verbose := v }) = .ok r →
       400 ≤ r.status → r.status ≤ 599 →
       show_async c post n v = .error (.statusError r.status)) ∧
    (∀ (base : String) (body : Option Json) (s1 s2 : Nat),
       list_models_sync base (fun _ => .ok ⟨s1, body⟩) =
         list_models_sync base (fun _ => .ok ⟨s2, body⟩) ∧
       list_models_async base (fun _ => .ok ⟨s1, body⟩) =
         list_models_async base (fun _ => .ok ⟨s2, body⟩)) := by
  refine ⟨?_, ?_, ?_, ?_⟩
  · intro c get r hget h4 h5
    constructor
    · rw [list_sync, hget]
      simp only
      rw [if_pos ⟨h4, h5⟩]
    · rw [list_async, hget]
      simp only
      rw [if_pos ⟨h4, h5⟩]
  · intro c post n v r hpost h4 h5
    rw [show_sync, hpost]
    simp only
    rw [if_pos ⟨h4, h5⟩]
  · intro c post n v r hpost h4 h5
    rw [show_async, hpost]
    simp only
    rw [if_pos ⟨h4, h5⟩]
  · intro base body s1 s2
    exact ⟨rfl, rfl⟩

/-- Transport answering every GET with status 500 and an empty catalog
body. -/
def get500 : String → Except String HttpResponse := fun _ => .ok ⟨500, some bodyEmptyModels⟩

/-- Transport answering every POST with status 503 and an unparseable
body. -/
def post503 : String → Json → Except String HttpResponse := fun _ _ => .ok ⟨503, none⟩

/-- Witness for the amended C3 at concrete transports and statuses. -/
theorem listing_status_policy_witness :
    (list_sync none get500 = .error (.statusError 500) ∧
     list_async none get500 = .error (.statusError 500)) ∧
    show_sync none post503 "m" none = .error (.statusError 503) ∧
    show_async none post503 "m" none = .error (.statusError 503) ∧
    (list_models_sync "b" (fun _ => .ok ⟨500, some bodyOneX⟩) =
       list_models_sync "b" (fun _ => .ok ⟨200, some bodyOneX⟩) ∧
     list_models_async "b" (fun _ => .ok ⟨500, some bodyOneX⟩) =
       list_models_async "b" (fun _ => .ok ⟨200, some bodyOneX⟩)) :=
  ⟨listing_status_policy.1 none get500 ⟨500, some bodyEmptyModels⟩ rfl (by decide) (by decide),
   listing_status_policy.2.1 none post503 "m" none ⟨503, none⟩ rfl (by decide) (by decide),
   listing_status_policy.2.2.1 none post503 "m" none ⟨503, none⟩ rfl (by decide) (by decide),
   listing_status_policy.2.2.2 "b" (some bodyOneX) 500 200⟩

/-- Claim C4: for a 2xx response whose body is an object with a models
field holding N decodable entries, both listing variants of
src/api/list.rs succeed with exactly N records, the sequential decode of
the entries in input order (decodeListModels visits the array elements
left to right with no sorting and no deduplication). -/
theorem list_returns_entries_in_order (c : Option Client) (s : Nat) (js : List Json)
    (ms : List ListModel) (h2 : 200 ≤ s) (h3 : s < 300)
    (hjs : decodeListModels js = .ok ms) :
    list_sync c (fun _ => .ok ⟨s, some (.obj [("models", .arr js)])⟩) = .ok ms ∧
    list_async c (fun _ => .ok ⟨s, some (.obj [("models", .arr js)])⟩) = .ok ms ∧
    ms.length = js.length := by
  have hif : ¬(400 ≤ s ∧ s ≤ 599) := by omega
  have hbody : parseModelsBody (some (.obj [("models", .arr js)])) = .ok ms := by
    simp [parseModelsBody, decodeModelsResponse, decodeModelsResponseFields, hjs]
  refine ⟨?_, ?_, decodeListModels_length js ms hjs⟩
  · rw [list_sync]
    simp only
    rw [if_neg hif, hbody]
  · rw [list_async]
    simp only
    rw [if_neg hif, hbody]

/-- Witness for C4: a two-entry listing decoded in order. -/
theorem list_returns_entries_in_order_witness :
    list_sync none (fun _ => .ok ⟨200, some (.obj [("models",
        .arr [.obj [("name", .str "a")],
              .obj [("name", .str "b"), ("description", .str "D")]])])⟩) =
      .ok [{ name := "a", description := none }, { name := "b", description := some "D" }] ∧
    list_async none (fun _ => .ok ⟨200, some (.obj [("models",
        .arr [.obj [("name", .str "a")],
              .obj [("name", .str "b"), ("description", .str "D")]])])⟩) =
      .ok [{ name := "a", description := none }, { name := "b", description := some "D" }] ∧
    ([{ name := "a", description := none },
      { name := "b", description := some "D" }] : List ListModel).length =
      ([.obj [("name", .str "a")],
        .obj [("name", .str "b"), ("description", .str "D")]] : List Json).length :=
  list_returns_entries_in_order none 200
    [.obj [("name", .str "a")], .obj [("name", .str "b"), ("description", .str "D")]]
    [{ name := "a", description := none }, { name := "b", description := some "D" }]
    (by decide) (by decide) rfl

/-- Whether a JSON value is an array. -/
def isArr : Json → Bool
  | .arr _ => true
  | _ => false

/-- Whether a field list carries exactly one models binding and it holds
an array: the shape the ModelsResponse deserializer requires of the top
object.  The flag records whether a models binding was already seen. -/
def modelsArrayShapeFields : List (String × Json) → Bool → Bool
  | [], seen => seen
  | (k, v) :: rest, seen =>
    if k = "models" then
      if seen then false
      else isArr v && modelsArrayShapeFields rest true
    else modelsArrayShapeFields rest seen

/-- Whether a body parses to a JSON object whose models field holds an
array. -/
def goodListingShape : Option Json → Bool
  | some (.obj fields) => modelsArrayShapeFields fields false
  | _ => false

/-- Whether a listing result is a DecodeError. -/
def resultIsDecodeError : Except ApiError (List ListModel) → Bool
  | .error (.decodeError _) => true
  | _ => false

/-- A field list without the models-array shape makes the ModelsResponse
deserializer fail. -/
theorem decodeModelsResponseFields_bad_shape (fields : List (String × Json)) :
    ∀ acc : Option (List ListModel),
    modelsArrayShapeFields fields acc.isSome = false →
    ∃ msg, decodeModelsResponseFields fields acc = .error msg := by
  induction fields with
  | nil =>
    intro acc h
    cases acc with
    | none => exact ⟨"missing field models", rfl⟩
    | some ms => simp [modelsArrayShapeFields] at h
  | cons kv rest ih =>
    intro acc h
    cases kv with
    | mk k v =>
      rw [modelsArrayShapeFields.eq_def] at h
      rw [decodeModelsResponseFields.eq_def]
      simp only at h ⊢
      by_cases hk : k = "models"
      · rw [if_pos hk] at h ⊢
        cases acc with
        | some ms => exact ⟨"duplicate field models", rfl⟩
        | none =>
          simp only [Option.isSome_none, if_neg Bool.false_ne_true] at h
          cases v with
          | arr items =>
            simp only [isArr, Bool.true_and] at h
            cases hd : decodeListModels items with
            | error e => exact ⟨e, by simp [hd]⟩
            | ok ms =>
              obtain ⟨msg, hmsg⟩ := ih (some ms) (by simpa using h)
              exact ⟨msg, by simp [hd, hmsg]⟩
          | null => exact ⟨"invalid type for field models", rfl⟩
          | bool b => exact ⟨"invalid type for field models", rfl⟩
          | num nv => exact ⟨"invalid type for field models", rfl⟩
          | str sv => exact ⟨"invalid type for field models", rfl⟩
          | obj fs => exact ⟨"invalid type for field models", rfl⟩
      · rw [if_neg hk] at h ⊢
        exact ih acc h

/-- Claim C5: for a 2xx response whose body is not valid JSON or does not
have the shape of an object with a models field holding an array, both
listing variants of src/api/list.rs return a DecodeError; both decoders
are total Lean functions, so no input can make them panic, and returning
an error excludes an empty-but-successful result. -/
theorem list_malformed_body_decode_error (c : Option Client) (s : Nat) (body : Option Json)
    (h2 : 200 ≤ s) (h3 : s < 300) (hshape : goodListingShape body = false) :
    resultIsDecodeError (list_sync c (fun _ => .ok ⟨s, body⟩)) = true ∧
    resultIsDecodeError (list_async c (fun _ => .ok ⟨s, body⟩)) = true := by
  have hif : ¬(400 ≤ s ∧ s ≤ 599) := by omega
  have hbody : ∃ msg, parseModelsBody body = .error msg := by
    cases body with
    | none => exact ⟨"expected value: body is not valid JSON", rfl⟩
    | some j =>
      cases j with
      | obj fields =>
        have hb : modelsArrayShapeFields fields (Option.isSome (none : Option (List ListModel))) = false := by
          simpa [goodListingShape] using hshape
        obtain ⟨msg, hmsg⟩ := decodeModelsResponseFields_bad_shape fields none hb
        exact ⟨msg, by simp [parseModelsBody, decodeModelsResponse, hmsg]⟩
      | null => exact ⟨"invalid type: expected struct ModelsResponse", rfl⟩
      | bool b => exact ⟨"invalid type: expected struct ModelsResponse", rfl⟩
      | num nv => exact ⟨"invalid type: expected struct ModelsResponse", rfl⟩
      | str sv => exact ⟨"invalid type: expected struct ModelsResponse", rfl⟩
      | arr xs => exact ⟨"invalid type: expected struct ModelsResponse", rfl⟩
  obtain ⟨msg, hmsg⟩ := hbody
  constructor
  · rw [list_sync]
    simp only
    rw [if_neg hif, hmsg]
    rfl
  · rw [list_async]
    simp only
    rw [if_neg hif, hmsg]
    rfl

/-- Witness for C5: the malformed body of the spec example, an object
holding not_models instead of models. -/
theorem list_malformed_body_decode_error_witness :
    resultIsDecodeError
      (list_sync none (fun _ => .ok ⟨200, some (.obj [("not_models", .arr [])])⟩)) = true ∧
    resultIsDecodeError
      (list_async none (fun _ => .ok ⟨200, some (.obj [("not_models", .arr [])])⟩)) = true :=
  list_malformed_body_decode_error none 200 (some (.obj [("not_models", .arr [])]))
    (by decide) (by decide) rfl

/-- Claim C6: to_model (both variants) issues exactly one show request,
for modelId p.model and verbose true — its result depends on the
transport only through the response to the POST of the encoded
ShowRequest with name p.model and verbose true at the show URL — and on
success the result equals the record built from the decoded detail
response with only the name overwritten by p.name (every other field is
the value from_show_response takes from the detail response). -/
theorem to_model_request_and_frame :
    (∀ (p : PartialModel) (client : Option Ollama)
       (post1 post2 : String → Json → Except String HttpResponse),
       post1 (showUrl_sync client) (ShowRequest.encode { name := p.model, verbose := some true }) =
         post2 (showUrl_sync client) (ShowRequest.encode { name := p.model, verbose := some true }) →
       p.to_model_sync client post1 = p.to_model_sync client post2) ∧
    (∀ (p : PartialModel) (client : Option Ollama)
       (post1 post2 : String → Json → Except String HttpResponse),
       post1 (showUrl_async client) (ShowRequest.encode { name := p.model, verbose := some true }) =
         post2 (showUrl_async client) (ShowRequest.encode { name := p.model, verbose := some true }) →
       p.to_model_async client post1 = p.to_model_async client post2) ∧
    (∀ (p : PartialModel) (client : Option Ollama)
       (post : String → Json → Except String HttpResponse) (r : ShowResponse) (m : Model),
       show_sync client post p.model (some true) = .ok r →
       p.to_model_sync client post = .ok m →
       m = { Model.from_show_response r with name := p.name }) ∧
    (∀ (p : PartialModel) (client : Option Ollama)
       (post : String → Json → Except String HttpResponse) (r : ShowResponse) (m : Model),
       show_async client post p.model (some true) = .ok r →
       p.to_model_async client post = .ok m →
       m = { Model.from_show_response r with name := p.name }) := by
  refine ⟨?_, ?_, ?_, ?_⟩
  · intro p client post1 post2 h
    have hshow : show_sync client post1 p.model (some true) =
        show_sync client post2 p.model (some true) := by
      rw [show_sync, show_sync, h]
    rw [PartialModel.to_model_sync, PartialModel.to_model_sync, hshow]
  · intro p client post1 post2 h
    have hshow : show_async client post1 p.model (some true) =
        show_async client post2 p.model (some true) := by
      rw [show_async, show_async, h]
    rw [PartialModel.to_model_async, PartialModel.to_model_async, hshow]
  · intro p client post r m hs hm
    rw [PartialModel.to_model_sync, hs] at hm
    injection hm with hm
    exact hm.symm
  · intro p client post r m hs hm
    rw [PartialModel.to_model_async, hs] at hm
    injection hm with hm
    exact hm.symm

/-- Witness for C6: two transports agreeing only on the show request of
the partial record give the same enrichment, and the concrete enriched
record is the decoded response with only its name replaced. -/
theorem to_model_request_and_frame_witness :
    (PartialModel.mk "m:1" "m:1" "t" 10 "d").to_model_sync none demoPost =
      (PartialModel.mk "m:1" "m:1" "t" 10 "d").to_model_sync none divergingPost ∧
    demoEnriched = { Model.from_show_response demoShowResponse with name := "m:1" } :=
  ⟨to_model_request_and_frame.1 (PartialModel.mk "m:1" "m:1" "t" 10 "d") none
      demoPost divergingPost rfl,
   to_model_request_and_frame.2.2.1 (PartialModel.mk "m:1" "m:1" "t" 10 "d") none
      demoPost demoShowResponse demoEnriched rfl rfl⟩

/-- Decoding an encoded optional string gives it back. -/
theorem decodeOptStrValue_encode (x : Option String) :
    decodeOptStrValue (encodeOptStr x) = .ok x := by
  cases x <;> rfl

/-- Decoding an encoded string list gives it back. -/
theorem decodeStringList_map (xs : List String) :
    decodeStringList (xs.map .str) = .ok xs := by
  induction xs with
  | nil => rfl
  | cons x tl ih => simp [decodeStringList, ih]

/-- Decoding an encoded optional string list gives it back. -/
theorem decodeOptStrListValue_encode (x : Option (List String)) :
    decodeOptStrListValue (encodeOptStrList x) = .ok x := by
  cases x with
  | none => rfl
  | some xs => simp [encodeOptStrList, decodeOptStrListValue, decodeStringList_map]

/-- Decoding encoded ModelDetails gives them back. -/
theorem decodeModelDetails_encode (d : ModelDetails) :
    decodeModelDetails d.encode = .ok d := by
  simp [ModelDetails.encode, decodeModelDetails, decodeModelDetailsFields,
        decodeOptStrValue_encode, decodeOptStrListValue_encode]

/-- Step of the Model deserializer at the leading name field. -/
theorem decodeModelFields_name (s : String) (rest : List (String × Json)) :
    decodeModelFields (("name", .str s) :: rest) ⟨none, none, none, none, none, none⟩ =
      decodeModelFields rest ⟨some s, none, none, none, none, none⟩ := rfl

/-- Step of the Model deserializer at the model field. -/
theorem decodeModelFields_model (a s : String) (rest : List (String × Json)) :
    decodeModelFields (("model", .str s) :: rest) ⟨some a, none, none, none, none, none⟩ =
      decodeModelFields rest ⟨some a, some s, none, none, none, none⟩ := rfl

/-- Step of the Model deserializer at the modified_at field. -/
theorem decodeModelFields_modified_at (a b s : String) (rest : List (String × Json)) :
    decodeModelFields (("modified_at", .str s) :: rest) ⟨some a, some b, none, none, none, none⟩ =
      decodeModelFields rest ⟨some a, some b, some s, none, none, none⟩ := rfl

/-- Step of the Model deserializer at the size field: the value goes
through the u64 decoder. -/
theorem decodeModelFields_size (a b c : String) (v : Json) (rest : List (String × Json)) :
    decodeModelFields (("size", v) :: rest) ⟨some a, some b, some c, none, none, none⟩ =
      match decodeU64Value v with
      | .error e => .error e
      | .ok k => decodeModelFields rest ⟨some a, some b, some c, some k, none, none⟩ := rfl

/-- Step of the Model deserializer at the digest field. -/
theorem decodeModelFields_digest (a b c : String) (k : Nat) (s : String)
    (rest : List (String × Json)) :
    decodeModelFields (("digest", .str s) :: rest) ⟨some a, some b, some c, some k, none, none⟩ =
      decodeModelFields rest ⟨some a, some b, some c, some k, some s, none⟩ := rfl

/-- Step of the Model deserializer at the details field: the value goes
through the ModelDetails deserializer. -/
theorem decodeModelFields_details (a b c : String) (k : Nat) (s : String) (v : Json)
    (rest : List (String × Json)) :
    decodeModelFields (("details", v) :: rest) ⟨some a, some b, some c, some k, some s, none⟩ =
      match decodeModelDetails v with
      | .error e => .error e
      | .ok d => decodeModelFields rest ⟨some a, some b, some c, some k, some s, some d⟩ := rfl

/-- End of the Model deserializer with every field filled. -/
theorem decodeModelFields_nil (a b c : String) (k : Nat) (s : String) (d : ModelDetails) :
    decodeModelFields [] ⟨some a, some b, some c, some k, some s, some d⟩ =
      .ok { name := a, model := b, modified_at := c, size := k, digest := s, details := d } := rfl

/-- Claim C7: serializing a Model with Model::json and deserializing the
result again yields the record back field for field, for every Model
whose size respects the u64 machine bound (automatic in the Rust source,
where size is a u64).  The text rendering between the JSON value and the
wire string is the external serde_json primitive. -/
theorem model_json_roundtrip (m : Model) (hsize : m.size < 18446744073709551616) :
    decodeModel m.json = .ok m := by
  have hnum : decodeU64Value (.num (Int.ofNat m.size)) = .ok m.size := by
    rw [decodeU64Value]
    rw [if_pos ⟨by simp only [Int.ofNat_eq_coe]; omega, by simp only [Int.ofNat_eq_coe]; omega⟩]
    simp
  have hdet : decodeModelDetails (ModelDetails.encode m.details) = .ok m.details :=
    decodeModelDetails_encode m.details
  rw [Model.json, decodeModel]
  rw [decodeModelFields_name, decodeModelFields_model, decodeModelFields_modified_at,
      decodeModelFields_size, hnum]
  simp only
  rw [decodeModelFields_digest, decodeModelFields_details, hdet]
  simp only
  rw [decodeModelFields_nil]

/-- Concrete full record used to witness the round trip. -/
def demoFullModel : Model :=
  { name := "starcoder2:3b-q6_K", model := "starcoder2:3b-q6_K",
    modified_at := "2024-08-27T12:02:13.295534973+01:00", size := 2490902249,
    digest := "a5864ede0c4971b7eb12c14b27069902e8bb32691d997a55ac71c4831cdd01e2",
    details := { parent_model := some "", format := some "gguf", family := some "starcoder2",
                 families := some ["starcoder2"], parameter_size := some "3B",
                 quantization_level := some "Q6_K" } }

/-- Witness for C7: the round trip on the concrete record of the source
tests. -/
theorem model_json_roundtrip_witness :
    demoFullModel.size < 18446744073709551616 ∧
    decodeModel demoFullModel.json = .ok demoFullModel :=
  ⟨by decide, model_json_roundtrip demoFullModel (by decide)⟩

/-- Claim C10: every listing decoder in the source (the identical Model
structs of src/api/list.rs, src/api/sync/list.rs and src/api/async/list.rs
are all embedded by ListModel) deserializes an entry from only a name
string and an optional description: an entry whose other fields are any
unknown keys — in particular one lacking modified_at, size and digest, or
carrying extra fields — decodes to the record holding just that name and
no description, and the listing operation returns exactly that record. -/
theorem list_entry_only_name_description (c : Option Client) (n : String)
    (extras1 extras2 : List (String × Json))
    (h1 : ∀ kv ∈ extras1, kv.1 ≠ "name" ∧ kv.1 ≠ "description")
    (h2 : ∀ kv ∈ extras2, kv.1 ≠ "name" ∧ kv.1 ≠ "description") :
    decodeListModel (.obj (extras1 ++ ("name", .str n) :: extras2)) =
      .ok { name := n, description := none } ∧
    list_sync c (fun _ => .ok ⟨200, some (.obj [("models",
        .arr [.obj (extras1 ++ ("name", .str n) :: extras2)])])⟩) =
      .ok [{ name := n, description := none }] := by
  have hdec : decodeListModel (.obj (extras1 ++ ("name", .str n) :: extras2)) =
      .ok { name := n, description := none } := by
    rw [decodeListModel, decodeListModelFields_skip extras1 _ none none h1]
    rw [decodeListModelFields.eq_def]
    simp only
    rw [if_true]
    have h3 := decodeListModelFields_skip extras2 [] (some n) none h2
    rw [List.append_nil] at h3
    rw [h3]
    rfl
  refine ⟨hdec, ?_⟩
  rw [list_sync]
  simp only
  rw [if_neg (by omega)]
  simp [parseModelsBody, decodeModelsResponse, decodeModelsResponseFields,
        decodeListModels, hdec]

/-- Witness for C10: an entry carrying modified_at, size, digest and an
extra unknown field around its name still decodes to name only. -/
theorem list_entry_only_name_description_witness :
    decodeListModel (.obj ([("modified_at", .str "t")] ++ ("name", .str "m:1") ::
        [("size", .num 10), ("digest", .str "d"), ("extra_unknown", .bool true)])) =
      .ok { name := "m:1", description := none } ∧
    list_sync none (fun _ => .ok ⟨200, some (.obj [("models",
        .arr [.obj ([("modified_at", .str "t")] ++ ("name", .str "m:1") ::
          [("size", .num 10), ("digest", .str "d"), ("extra_unknown", .bool true)])])])⟩) =
      .ok [{ name := "m:1", description := none }] :=
  list_entry_only_name_description none "m:1"
    [("modified_at", .str "t")]
    [("size", .num 10), ("digest", .str "d"), ("extra_unknown", .bool true)]
    (by decide) (by decide)
